import Mathlib

/-!
Verification of the WhatsApp Automator dispatch and scheduling core.

Shallow embedding of the program:
* `sender.py` — `pick_message` (template selection and greeting), `dispatch`
  (session lifecycle, per-contact send loop with a try/finally release);
* `app.py` — `job_func` (recipient resolution and the empty-contacts guard)
  and `schedule_job` (singleton recurring job registration).

External effects (the Selenium driver, the sqlite queries, the random
choices, the APScheduler job store) are modelled as explicit parameters and
oracles; each definition's doc comment names the source location it embeds.
Session operations are recorded in an explicit event trace so that theorems
can speak about which calls were performed and in which order.
-/

namespace WhatsAppAutomation

/-- The three template categories of the `template` table
(models.py lines 53-61, sender.py line 65). -/
inductive Category where
  | quote
  | verse
  | hadith
deriving DecidableEq, Repr

/-- One row of the `template` table as read by `pick_message`
(sender.py lines 67-71): the `content` text and the `is_image` integer flag
(models.py line 59 stores it as an INTEGER, default 0). -/
structure TemplateRow where
  content : String
  is_image : Nat
deriving DecidableEq, Repr

/-- The category-specific greeting dictionary of `pick_message`
(sender.py lines 75-79). -/
def greeting : Category → String
  | Category.quote => "Assalamu alaikum! Here’s some motivation:\n\n"
  | Category.verse => "Salam! A verse for you:\n\n"
  | Category.hadith => "Peace be upon you. A hadith to reflect on:\n\n"

/-- Failure of the template query: `c.fetchone()` returns no row for the
chosen category and the tuple unpacking on sender.py line 71 raises.
The spec names this failure `NoTemplateAvailable`. -/
inductive PickError where
  | noTemplate
deriving DecidableEq, Repr

/-- `pick_message` (sender.py lines 58-80). The random category choice
(line 65) and the row returned by the ORDER BY RANDOM() query (lines 67-71)
are passed in as the oracle values `category` and `row`. When the query
yields no row the unpacking fails (error); otherwise the category greeting
is prepended to the content and the integer flag is converted with
`bool(is_image)` (line 80). -/
def pick_message (category : Category) (row : Option TemplateRow) :
    Except PickError (String × Bool) :=
  match row with
  | none => Except.error PickError.noTemplate
  | some r => Except.ok (greeting category ++ r.content, r.is_image != 0)

/-- The ways `send_whatsapp` can fail (sender.py lines 90-130): a
`TimeoutException` from one of the bounded waits (search box, header
confirmation, compose field) or any other Selenium error; all are re-raised
(lines 125-130). -/
inductive SendError where
  | searchTimeout
  | elementNotFound
  | headerMismatch
deriving DecidableEq, Repr

/-- Failure of a whole dispatch run (sender.py): the login wait in
`get_driver` timed out (lines 50-53), a `pick_message` call raised, or a
`send_whatsapp` call raised. -/
inductive DispatchError where
  | loginTimeout
  | pickFailed (e : PickError)
  | sendFailed (e : SendError)
deriving DecidableEq, Repr

/-- Observable session and reporting operations, recorded as a trace:
`getDriver` is the session-open call (sender.py line 138), `pick` the i-th
`pick_message` call (line 141), `send` a `send_whatsapp` attempt for the
named contact (line 142), `quit` the `driver.quit()` release (lines 52 and
144), `reportNoContacts` the "No valid contacts" report (app.py line 106). -/
inductive Event where
  | getDriver
  | pick (callIdx : Nat)
  | send (contactName : String)
  | quit
  | reportNoContacts
deriving DecidableEq, Repr

/-- Oracle for the external world during one dispatch run: whether the
login wait in `get_driver` succeeds, the (random category, query row) pair
seen by the i-th `pick_message` call, and the outcome of the i-th
`send_whatsapp` call (`none` = sent successfully). -/
structure Env where
  loginOk : Bool
  picks : Nat → Category × Option TemplateRow
  sendResult : Nat → Option SendError

/-- The per-contact loop of `dispatch` (sender.py lines 140-142), with `k`
the index of the next `pick_message`/`send_whatsapp` call: pick a message
for the contact, then attempt the send; the first raised error stops the
loop and propagates. Returns the loop outcome and the recorded trace. -/
def dispatchLoop (env : Env) (contacts : List (String × String)) (k : Nat) :
    Except DispatchError Unit × List Event :=
  match contacts with
  | [] => (Except.ok (), [])
  | (name, _num) :: rest =>
    match pick_message (env.picks k).1 (env.picks k).2 with
    | Except.error e => (Except.error (DispatchError.pickFailed e), [Event.pick k])
    | Except.ok _msg =>
      match env.sendResult k with
      | some e =>
        (Except.error (DispatchError.sendFailed e), [Event.pick k, Event.send name])
      | none =>
        let r := dispatchLoop env rest (k + 1)
        (r.1, Event.pick k :: Event.send name :: r.2)

/-- `dispatch` (sender.py lines 133-145): open the session with
`get_driver()` (on a login timeout `get_driver` itself quits the driver and
re-raises, lines 50-53), then run the per-contact loop inside
`try ... finally driver.quit()` (lines 139-144), so the release is recorded
on every exit path. -/
def dispatch (env : Env) (contacts : List (String × String)) :
    Except DispatchError Unit × List Event :=
  if env.loginOk then
    let r := dispatchLoop env contacts 0
    (r.1, Event.getDriver :: (r.2 ++ [Event.quit]))
  else
    (Except.error DispatchError.loginTimeout, [Event.getDriver, Event.quit])

/-- One row of the `friend` table as returned by `get_friends`
(app.py lines 37-47): (id, name, number). -/
structure Friend where
  id : Nat
  name : String
  number : String
deriving DecidableEq, Repr

/-- The number-to-name dictionary built by `job_func` (app.py line 96):
a Python dict comprehension over the full friend list, so a later row with
the same number overwrites an earlier one. -/
def friend_map (friends : List Friend) : String → Option String :=
  friends.foldl
    (fun m f => fun num => if num = f.number then some f.name else m num)
    (fun _ => none)

/-- The group branch of `job_func` (app.py lines 96-99): walk the group's
member numbers in order, appending `(friend_map[num], num)` for each number
present in the map and silently skipping the others. -/
def resolve_group_contacts (friends : List Friend) (member_numbers : List String) :
    List (String × String) :=
  member_numbers.foldl
    (fun contacts num =>
      match friend_map friends num with
      | some name => contacts ++ [(name, num)]
      | none => contacts)
    []

/-- Failure of `job_func` before dispatch: the `next(...)` single-friend
lookup raised StopIteration (app.py line 102), or the dispatch run itself
raised. -/
inductive JobError where
  | contactNotFound
  | dispatchFailed (e : DispatchError)
deriving DecidableEq, Repr

/-- The contact-list construction of `job_func` (app.py lines 93-103):
group branch resolves members through the number-to-name map, friend branch
looks the target id up with `next(f for f in friends if f[0] == target_id)`
which raises when absent. -/
def build_contacts (friends : List Friend) (groups_members : Nat → List String)
    (is_group : Bool) (target_id : Nat) :
    Except JobError (List (String × String)) :=
  if is_group then
    Except.ok (resolve_group_contacts friends (groups_members target_id))
  else
    match friends.find? (fun f => f.id == target_id) with
    | some f => Except.ok [(f.name, f.number)]
    | none => Except.error JobError.contactNotFound

/-- `job_func` (app.py lines 89-110): build the contact list; if it is
empty, report "No valid contacts found to send." and return without calling
`dispatch`; otherwise run `dispatch(contacts)`. -/
def job_func (env : Env) (friends : List Friend) (groups_members : Nat → List String)
    (is_group : Bool) (target_id : Nat) :
    Except JobError Unit × List Event :=
  match build_contacts friends groups_members is_group target_id with
  | Except.error e => (Except.error e, [])
  | Except.ok contacts =>
    if contacts = [] then
      (Except.ok (), [Event.reportNoContacts])
    else
      let r := dispatch env contacts
      (match r.1 with
       | Except.ok u => Except.ok u
       | Except.error e => Except.error (JobError.dispatchFailed e), r.2)

/-- The interval choices offered by the UI combobox
(app.py lines 169-172): Now, Daily, Weekly, Monthly. -/
inductive IntervalType where
  | Now
  | Daily
  | Weekly
  | Monthly
deriving DecidableEq, Repr

/-- The trigger argument passed to `sched.add_job` (app.py lines 116-122):
an interval trigger with a day or week period, or a cron trigger bound to a
fixed day of the month. -/
inductive TriggerSpec where
  | intervalDays (n : Nat)
  | intervalWeeks (n : Nat)
  | cron (dayOfMonth : Nat)
deriving DecidableEq, Repr

/-- One job registered in the APScheduler store: its string id, its trigger,
and the data captured by the `job_func` closure (the `is_group` and
`target_id` arguments of `schedule_job`, app.py lines 80-110). -/
structure ScheduledJob where
  jobId : String
  trigger : TriggerSpec
  is_group : Bool
  target_id : Nat
deriving DecidableEq, Repr

/-- The fixed singleton job id (app.py line 84). -/
def job_id : String := "whatsapp_job"

/-- `sched.get_job` over the modelled job store. -/
def get_job (jobs : List ScheduledJob) (jid : String) : Option ScheduledJob :=
  jobs.find? (fun j => j.jobId == jid)

/-- `sched.remove_job` over the modelled job store. -/
def remove_job (jobs : List ScheduledJob) (jid : String) : List ScheduledJob :=
  jobs.filter (fun j => j.jobId != jid)

/-- `sched.add_job` over the modelled job store. -/
def add_job (jobs : List ScheduledJob) (j : ScheduledJob) : List ScheduledJob :=
  jobs ++ [j]

/-- The `cron_args` trigger kwargs chosen in app.py lines 116-122:
Daily is an interval trigger of 1 day, Weekly an interval trigger of
1 week, Monthly a cron trigger on day 1. For the Now interval the source
leaves `cron_args` as the empty dict and returns before ever reaching
`add_job` (line 113-114), so the value given here for Now is never used. -/
def cron_args : IntervalType → TriggerSpec
  | IntervalType.Daily => TriggerSpec.intervalDays 1
  | IntervalType.Weekly => TriggerSpec.intervalWeeks 1
  | IntervalType.Monthly => TriggerSpec.cron 1
  | IntervalType.Now => TriggerSpec.intervalDays 0

/-- `schedule_job` (app.py lines 80-124): remove the job registered under
the singleton id if one exists (lines 86-87); for the Now interval run
`job_func` synchronously inline (lines 113-114), otherwise register a new
job under the singleton id with the `cron_args` trigger (lines 115-124).
Returns the new job store together with the list of inline `job_func`
executions performed by the call. -/
def schedule_job (env : Env) (friends : List Friend)
    (groups_members : Nat → List String) (jobs : List ScheduledJob)
    (is_group : Bool) (target_id : Nat) (interval_type : IntervalType) :
    List ScheduledJob × List (Except JobError Unit × List Event) :=
  let jobs1 := if (get_job jobs job_id).isSome then remove_job jobs job_id else jobs
  if interval_type = IntervalType.Now then
    (jobs1, [job_func env friends groups_members is_group target_id])
  else
    (add_job jobs1
      { jobId := job_id, trigger := cron_args interval_type,
        is_group := is_group, target_id := target_id }, [])

/-- Modelled from the spec: a calendar date of the simulated clock used in
spec section 8 to exercise the Monthly trigger (the clock itself is not
part of the repository). -/
structure Date where
  year : Nat
  month : Nat
  day : Nat
deriving DecidableEq, Repr

/-- Modelled from the spec: Gregorian leap-year rule for the simulated
clock. -/
def isLeap (y : Nat) : Bool :=
  (y % 4 == 0 && y % 100 != 0) || y % 400 == 0

/-- Modelled from the spec: number of days in a month of the simulated
clock. -/
def monthLength (y m : Nat) : Nat :=
  if m = 2 then (if isLeap y then 29 else 28)
  else if m = 4 ∨ m = 6 ∨ m = 9 ∨ m = 11 then 30
  else 31

/-- Modelled from the spec: the successor date on the simulated clock. -/
def nextDay (d : Date) : Date :=
  if d.day < monthLength d.year d.month then ⟨d.year, d.month, d.day + 1⟩
  else if d.month < 12 then ⟨d.year, d.month + 1, 1⟩
  else ⟨d.year + 1, 1, 1⟩

/-- Modelled from the spec: the window of `n` consecutive simulated days
starting at `start` (spec section 8, "a simulated clock across a 60-day
window"). -/
def window : Date → Nat → List Date
  | _, 0 => []
  | d, n + 1 => d :: window (nextDay d) n

/-- Modelled from the spec: the firing rule of the external trigger
registry's cron trigger with a `day` field — it fires exactly on the dates
whose day-of-month equals the field (spec sections 4.3 and 6: "registers a
trigger that fires on day 1 of each month"). -/
def cronFires (dayOfMonth : Nat) (d : Date) : Bool :=
  d.day == dayOfMonth

/-- Specification-side restatement of group resolution (spec sections 4.4
and 8): keep, in member order, each member number that has a matching
contact in the number-to-name map, paired with that contact's name, and
drop the numbers with no match. Compared against the loop-based
`resolve_group_contacts` taken from the source. -/
def resolve_group_spec (friends : List Friend) (member_numbers : List String) :
    List (String × String) :=
  member_numbers.filterMap
    (fun num => (friend_map friends num).map (fun name => (name, num)))

/-- The names carried by the `send` events of a trace, in order. -/
def sentNames (evs : List Event) : List String :=
  evs.filterMap (fun e => match e with | Event.send n => some n | _ => none)

/-- The trace produced by a run of the per-contact loop that processes the
named contacts in order without interruption: a `pick` and a `send` event
per contact, with call indices counting up from `k`. -/
def loopEvents : List String → Nat → List Event
  | [], _ => []
  | n :: ns, k => Event.pick k :: Event.send n :: loopEvents ns (k + 1)

deriving instance DecidableEq for Except

/-- The group-resolution loop is the map-and-drop described by the spec. -/
lemma resolve_group_contacts_eq_spec (friends : List Friend)
    (member_numbers : List String) :
    resolve_group_contacts friends member_numbers
      = resolve_group_spec friends member_numbers := by
  have h : ∀ (nums : List String) (acc : List (String × String)),
      nums.foldl
        (fun contacts num =>
          match friend_map friends num with
          | some name => contacts ++ [(name, num)]
          | none => contacts) acc
        = acc ++ nums.filterMap
            (fun num => (friend_map friends num).map (fun name => (name, num))) := by
    intro nums
    induction nums with
    | nil => intro acc; simp
    | cons num rest ih =>
      intro acc
      cases hm : friend_map friends num with
      | none => simp [List.foldl_cons, hm, ih]
      | some name => simp [List.foldl_cons, hm, ih]
  simpa [resolve_group_contacts, resolve_group_spec] using h member_numbers []

/-- The numbers of the resolved pairs form a sublist of the member list. -/
lemma resolve_group_spec_snd_sublist (friends : List Friend) :
    ∀ member_numbers : List String,
      ((resolve_group_spec friends member_numbers).map Prod.snd).Sublist
        member_numbers := by
  intro nums
  induction nums with
  | nil => simp [resolve_group_spec]
  | cons num rest ih =>
    cases hm : friend_map friends num with
    | none =>
      simpa [resolve_group_spec, List.filterMap_cons, hm] using
        List.Sublist.cons num ih
    | some name =>
      simpa [resolve_group_spec, List.filterMap_cons, hm] using
        List.Sublist.cons₂ num ih

/-- The per-contact loop never releases the session itself. -/
lemma dispatchLoop_no_quit (env : Env) :
    ∀ (contacts : List (String × String)) (k : Nat),
      Event.quit ∉ (dispatchLoop env contacts k).2 := by
  intro contacts
  induction contacts with
  | nil => intro k; simp [dispatchLoop]
  | cons c rest ih =>
    intro k
    obtain ⟨name, num⟩ := c
    simp only [dispatchLoop]
    cases hp : pick_message (env.picks k).1 (env.picks k).2 with
    | error e => simp
    | ok m =>
      cases hs : env.sendResult k with
      | some e => simp
      | none => simp [ih (k + 1)]

/-- Every dispatch run records exactly one session release. -/
lemma dispatch_quit_count (env : Env) (contacts : List (String × String)) :
    ((dispatch env contacts).2).count Event.quit = 1 := by
  unfold dispatch
  by_cases h : env.loginOk = true
  · have h0 : (dispatchLoop env contacts 0).2.count Event.quit = 0 :=
      List.count_eq_zero.2 (dispatchLoop_no_quit env contacts 0)
    simp [h, List.count_cons, List.count_append, h0]
  · simp only [Bool.not_eq_true] at h
    simp [h, List.count_cons]

/-- Removing the singleton id leaves no job findable under it. -/
lemma get_job_remove (jobs : List ScheduledJob) (jid : String) :
    get_job (remove_job jobs jid) jid = none := by
  unfold get_job remove_job
  rw [List.find?_eq_none]
  intro j hj
  have h2 := (List.mem_filter.1 hj).2
  simp only [bne_iff_ne, ne_eq] at h2
  simp [h2]

/-- Removing an id that is not registered is a no-op. -/
lemma remove_job_eq_of_none (jobs : List ScheduledJob) (jid : String)
    (h : get_job jobs jid = none) : remove_job jobs jid = jobs := by
  unfold get_job at h
  rw [List.find?_eq_none] at h
  refine List.filter_eq_self.2 ?_
  intro j hj
  have hne := h j hj
  simp only [beq_iff_eq] at hne
  simp [hne]

/-- The conditional removal at the top of `schedule_job` (app.py lines
86-87) always leaves the store with the singleton id removed. -/
lemma remove_if_present (jobs : List ScheduledJob) (jid : String) :
    (if (get_job jobs jid).isSome then remove_job jobs jid else jobs)
      = remove_job jobs jid := by
  cases h : get_job jobs jid with
  | some j => simp [h]
  | none => simp [h, remove_job_eq_of_none jobs jid h]

/-- A recurring schedule call replaces the singleton slot: the new store is
the old one with the singleton id removed plus one new job. -/
lemma schedule_recurring_aux (env : Env) (friends : List Friend)
    (gm : Nat → List String) (jobs : List ScheduledJob) (ig : Bool)
    (tid : Nat) (it : IntervalType) (h : it ≠ IntervalType.Now) :
    (schedule_job env friends gm jobs ig tid it).1
      = remove_job jobs job_id
          ++ [{ jobId := job_id, trigger := cron_args it,
                is_group := ig, target_id := tid }] := by
  unfold schedule_job add_job
  simp [remove_if_present, h]

/-- After a replace, the singleton id resolves to the new job. -/
lemma get_job_after_replace (jobs : List ScheduledJob) (jid : String)
    (j : ScheduledJob) (hj : j.jobId = jid) :
    get_job (remove_job jobs jid ++ [j]) jid = some j := by
  unfold get_job
  rw [List.find?_append]
  have h1 := get_job_remove jobs jid
  unfold get_job at h1
  rw [h1]
  simp [List.find?, hj]

/-- After a replace, exactly one stored job carries the singleton id. -/
lemma countP_singleton_id (jobs : List ScheduledJob) (jid : String)
    (j : ScheduledJob) (hj : j.jobId = jid) :
    ((remove_job jobs jid ++ [j]).countP (fun x => x.jobId == jid)) = 1 := by
  rw [List.countP_append]
  have h0 : (remove_job jobs jid).countP (fun x => x.jobId == jid) = 0 := by
    refine List.countP_eq_zero.2 ?_
    intro x hx
    have h2 := (List.mem_filter.1 hx).2
    simp only [bne_iff_ne, ne_eq] at h2
    simp [h2]
  simp [h0, List.countP_cons, hj]

/-- A failing `send_whatsapp` at loop position `i` (with the earlier picks
and sends succeeding) stops the loop: the trace covers exactly the first
`i + 1` contacts and the error propagates. -/
lemma dispatchLoop_send_fail (env : Env) (err : SendError) :
    ∀ (i : Nat) (contacts : List (String × String)) (k : Nat),
      i < contacts.length →
      (∀ j, j < i + 1 → ((env.picks (k + j)).2).isSome = true) →
      (∀ j, j < i → env.sendResult (k + j) = none) →
      env.sendResult (k + i) = some err →
      dispatchLoop env contacts k
        = (Except.error (DispatchError.sendFailed err),
           loopEvents ((contacts.take (i + 1)).map Prod.fst) k) := by
  intro i
  induction i with
  | zero =>
    intro contacts k hlen hpick hsend hfail
    cases contacts with
    | nil => simp at hlen
    | cons c rest =>
      obtain ⟨name, num⟩ := c
      have hp := hpick 0 (by omega)
      rw [Nat.add_zero] at hp hfail
      obtain ⟨row, hrow⟩ := Option.isSome_iff_exists.1 hp
      simp only [dispatchLoop, hrow, pick_message, hfail]
      simp [loopEvents]
  | succ i ih =>
    intro contacts k hlen hpick hsend hfail
    cases contacts with
    | nil => simp at hlen
    | cons c rest =>
      obtain ⟨name, num⟩ := c
      have hp0 := hpick 0 (by omega)
      rw [Nat.add_zero] at hp0
      obtain ⟨row, hrow⟩ := Option.isSome_iff_exists.1 hp0
      have hs0 := hsend 0 (by omega)
      rw [Nat.add_zero] at hs0
      have ihres := ih rest (k + 1) (by simpa using hlen)
        (fun j hj => by
          have h := hpick (j + 1) (by omega)
          rwa [show k + (j + 1) = k + 1 + j by omega] at h)
        (fun j hj => by
          have h := hsend (j + 1) (by omega)
          rwa [show k + (j + 1) = k + 1 + j by omega] at h)
        (by rw [show k + 1 + i = k + (i + 1) by omega]; exact hfail)
      simp only [dispatchLoop, hrow, pick_message, hs0, ihres]
      simp [loopEvents]

/-- A failing `pick_message` at loop position `i` (with the earlier
iterations succeeding) stops the loop before any send for that contact:
the trace covers the first `i` contacts plus the failing pick, the error
propagates. -/
lemma dispatchLoop_pick_fail (env : Env) :
    ∀ (i : Nat) (contacts : List (String × String)) (k : Nat),
      i < contacts.length →
      (∀ j, j < i → ((env.picks (k + j)).2).isSome = true) →
      (∀ j, j < i → env.sendResult (k + j) = none) →
      (env.picks (k + i)).2 = none →
      dispatchLoop env contacts k
        = (Except.error (DispatchError.pickFailed PickError.noTemplate),
           loopEvents ((contacts.take i).map Prod.fst) k
             ++ [Event.pick (k + i)]) := by
  intro i
  induction i with
  | zero =>
    intro contacts k hlen hpick hsend hfail
    cases contacts with
    | nil => simp at hlen
    | cons c rest =>
      obtain ⟨name, num⟩ := c
      rw [Nat.add_zero] at hfail
      simp only [dispatchLoop, hfail, pick_message]
      simp [loopEvents]
  | succ i ih =>
    intro contacts k hlen hpick hsend hfail
    cases contacts with
    | nil => simp at hlen
    | cons c rest =>
      obtain ⟨name, num⟩ := c
      have hp0 := hpick 0 (by omega)
      rw [Nat.add_zero] at hp0
      obtain ⟨row, hrow⟩ := Option.isSome_iff_exists.1 hp0
      have hs0 := hsend 0 (by omega)
      rw [Nat.add_zero] at hs0
      have ihres := ih rest (k + 1) (by simpa using hlen)
        (fun j hj => by
          have h := hpick (j + 1) (by omega)
          rwa [show k + (j + 1) = k + 1 + j by omega] at h)
        (fun j hj => by
          have h := hsend (j + 1) (by omega)
          rwa [show k + (j + 1) = k + 1 + j by omega] at h)
        (by rw [show k + 1 + i = k + (i + 1) by omega]; exact hfail)
      simp only [dispatchLoop, hrow, pick_message, hs0, ihres]
      simp [loopEvents, show k + (i + 1) = k + 1 + i by omega]

/-- The send events of an uninterrupted loop trace are its contact names. -/
lemma sentNames_loopEvents :
    ∀ (ns : List String) (k : Nat), sentNames (loopEvents ns k) = ns := by
  intro ns
  induction ns with
  | nil => intro k; rfl
  | cons n t ih =>
    intro k
    have h := ih (k + 1)
    simp only [sentNames] at h
    simp [loopEvents, sentNames, List.filterMap_cons, h]

/-- Send-name extraction distributes over trace concatenation. -/
lemma sentNames_append (l₁ l₂ : List Event) :
    sentNames (l₁ ++ l₂) = sentNames l₁ ++ sentNames l₂ := by
  simp [sentNames, List.filterMap_append]

/-- A list of characters is a prefix of itself extended on the right. -/
lemma isPrefixOf_append_self (l t : List Char) : l.isPrefixOf (l ++ t) = true := by
  induction l with
  | nil => simp [List.isPrefixOf]
  | cons a as ih => simp [List.isPrefixOf, ih]

/-- A non-empty prefix of a non-empty list starts with the same character. -/
lemma head_eq_of_prefix_append (p q s : List Char)
    (h : p.isPrefixOf (q ++ s) = true) :
    p = [] ∨ q = [] ∨ p.head? = q.head? := by
  cases p with
  | nil => exact Or.inl rfl
  | cons a t =>
    cases q with
    | nil => exact Or.inr (Or.inl rfl)
    | cons b u =>
      refine Or.inr (Or.inr ?_)
      simp only [List.cons_append, List.isPrefixOf, Bool.and_eq_true, beq_iff_eq] at h
      simp [h.1]

/-- Each greeting string is non-empty. -/
lemma greeting_ne_nil : ∀ c : Category, (greeting c).data ≠ [] := by
  intro c; cases c <;> decide

/-- Distinct greetings start with distinct characters. -/
lemma greeting_head_ne :
    ∀ c c' : Category, c ≠ c' →
      (greeting c).data.head? ≠ (greeting c').data.head? := by
  intro c c' h
  cases c <;> cases c' <;> first | (exact absurd rfl h) | decide

/-- Only the chosen category's greeting is a prefix of the built message. -/
lemma greeting_prefix_unique (cat c' : Category) (s : String)
    (h : ((greeting c').data).isPrefixOf ((greeting cat ++ s).data) = true) :
    c' = cat := by
  rw [String.data_append] at h
  rcases head_eq_of_prefix_append _ _ _ h with h1 | h1 | h1
  · exact absurd h1 (greeting_ne_nil c')
  · exact absurd h1 (greeting_ne_nil cat)
  · by_contra hne
    exact greeting_head_ne c' cat hne h1

/-- A concrete run environment: login succeeds, every pick returns a quote
template row, every send succeeds. -/
def envAllOk : Env :=
  ⟨true, fun _ => (Category.quote, some ⟨"Stay positive.", 0⟩), fun _ => none⟩

/-- A concrete run environment in which every template query finds no row. -/
def envNoTemplate : Env :=
  ⟨true, fun _ => (Category.quote, none), fun _ => none⟩

/-- A concrete run environment in which the second send attempt times out
and everything else succeeds. -/
def envSendFail : Env :=
  ⟨true, fun _ => (Category.quote, some ⟨"Stay positive.", 0⟩),
   fun j => if j = 1 then some SendError.searchTimeout else none⟩

/-- C1: when the resolved contact list is empty, the dispatch path reports
"no valid contacts" and returns without any session operation: the trace
holds no `get_driver` call and no send, only the report. -/
theorem job_func_empty_contacts :
    ∀ (env : Env) (friends : List Friend) (gm : Nat → List String) (tid : Nat),
      resolve_group_contacts friends (gm tid) = [] →
      job_func env friends gm true tid
          = (Except.ok (), [Event.reportNoContacts]) ∧
      Event.getDriver ∉ (job_func env friends gm true tid).2 ∧
      ∀ n, Event.send n ∉ (job_func env friends gm true tid).2 := by
  intro env friends gm tid h
  have hj : job_func env friends gm true tid
      = (Except.ok (), [Event.reportNoContacts]) := by
    unfold job_func build_contacts
    simp [h]
  refine ⟨hj, ?_, ?_⟩
  · rw [hj]; simp
  · intro n; rw [hj]; simp

/-- C1 witness: a concrete group with no resolvable members. -/
theorem job_func_empty_contacts_witness :
    resolve_group_contacts [] ((fun _ => ([] : List String)) 0) = [] ∧
    job_func envAllOk [] (fun _ => []) true 0
      = (Except.ok (), [Event.reportNoContacts]) :=
  ⟨rfl, (job_func_empty_contacts envAllOk [] (fun _ => []) 0 rfl).1⟩

/-- C2: every dispatch run, whatever the outcome of the per-contact loop
(success, pick failure, send failure) and whatever the login wait did,
records exactly one `driver.quit()` release. -/
theorem dispatch_releases_session_once :
    ∀ (env : Env) (contacts : List (String × String)),
      ((dispatch env contacts).2).count Event.quit = 1 :=
  fun env contacts => dispatch_quit_count env contacts

/-- C3: a schedule call with a recurring interval removes any job under the
singleton id and adds exactly one new job, so afterwards exactly one stored
job carries the singleton id and it holds the new trigger. -/
theorem schedule_recurring_replaces :
    ∀ (env : Env) (friends : List Friend) (gm : Nat → List String)
      (jobs : List ScheduledJob) (ig : Bool) (tid : Nat) (it : IntervalType),
      it ≠ IntervalType.Now →
      (schedule_job env friends gm jobs ig tid it).1
          = remove_job jobs job_id
              ++ [{ jobId := job_id, trigger := cron_args it,
                    is_group := ig, target_id := tid }] ∧
      get_job (schedule_job env friends gm jobs ig tid it).1 job_id
          = some { jobId := job_id, trigger := cron_args it,
                   is_group := ig, target_id := tid } ∧
      ((schedule_job env friends gm jobs ig tid it).1.countP
          (fun j => j.jobId == job_id)) = 1 := by
  intro env friends gm jobs ig tid it h
  have he := schedule_recurring_aux env friends gm jobs ig tid it h
  refine ⟨he, ?_, ?_⟩
  · rw [he]; exact get_job_after_replace jobs job_id _ rfl
  · rw [he]; exact countP_singleton_id jobs job_id _ rfl

/-- C3 witness: schedule(Daily) then schedule(Weekly) leaves only the
Weekly trigger armed under the singleton id. -/
theorem schedule_recurring_replaces_witness :
    IntervalType.Weekly ≠ IntervalType.Now ∧
    get_job (schedule_job envAllOk [] (fun _ => [])
        (schedule_job envAllOk [] (fun _ => []) [] false 1 IntervalType.Daily).1
        false 1 IntervalType.Weekly).1 job_id
      = some { jobId := job_id, trigger := TriggerSpec.intervalWeeks 1,
               is_group := false, target_id := 1 } :=
  ⟨by decide,
   (schedule_recurring_replaces envAllOk [] (fun _ => []) _ false 1
      IntervalType.Weekly (by decide)).2.1⟩

/-- C4: group resolution returns exactly the member numbers that have a
matching contact in the number-to-name map, paired with that contact's
name, in member order; unmatched numbers are dropped without error. -/
theorem resolve_group_correct :
    ∀ (friends : List Friend) (member_numbers : List String),
      resolve_group_contacts friends member_numbers
          = resolve_group_spec friends member_numbers ∧
      (∀ p ∈ resolve_group_contacts friends member_numbers,
        p.2 ∈ member_numbers ∧ friend_map friends p.2 = some p.1) ∧
      ((resolve_group_contacts friends member_numbers).map Prod.snd).Sublist
        member_numbers := by
  intro friends nums
  have he := resolve_group_contacts_eq_spec friends nums
  refine ⟨he, ?_, ?_⟩
  · intro p hp
    rw [he] at hp
    unfold resolve_group_spec at hp
    obtain ⟨num, hnum, hsome⟩ := List.mem_filterMap.1 hp
    cases hm : friend_map friends num with
    | none => rw [hm] at hsome; simp at hsome
    | some name =>
      rw [hm] at hsome
      simp only [Option.map_some'] at hsome
      have hpe : p = (name, num) := by
        injection hsome with h
        exact h.symm
      subst hpe
      exact ⟨hnum, hm⟩
  · rw [he]
    exact resolve_group_spec_snd_sublist friends nums

/-- C4 witness: a concrete snapshot with one stale member number; the
member "+10002" resolves to Bob, the stale "+10003" is dropped. -/
theorem resolve_group_correct_witness :
    ("Bob", "+10002") ∈ resolve_group_contacts
        [{ id := 1, name := "Alice", number := "+10001" },
         { id := 2, name := "Bob", number := "+10002" }]
        ["+10002", "+10003", "+10001"] ∧
    "+10002" ∈ ["+10002", "+10003", "+10001"] ∧
    friend_map
        [{ id := 1, name := "Alice", number := "+10001" },
         { id := 2, name := "Bob", number := "+10002" }] "+10002"
      = some "Bob" :=
  ⟨by decide,
   ((resolve_group_correct
      [{ id := 1, name := "Alice", number := "+10001" },
       { id := 2, name := "Bob", number := "+10002" }]
      ["+10002", "+10003", "+10001"]).2.1 ("Bob", "+10002") (by decide)).1,
   ((resolve_group_correct
      [{ id := 1, name := "Alice", number := "+10001" },
       { id := 2, name := "Bob", number := "+10002" }]
      ["+10002", "+10003", "+10001"]).2.1 ("Bob", "+10002") (by decide)).2⟩

/-- The session-open event carries no send name. -/
lemma sentNames_getDriver_cons (l : List Event) :
    sentNames (Event.getDriver :: l) = sentNames l := by
  simp [sentNames, List.filterMap_cons]

/-- Send names of an uninterrupted loop trace followed by a tail. -/
lemma sentNames_loop_append (ns : List String) (k : Nat) (tail : List Event) :
    sentNames (loopEvents ns k ++ tail) = ns ++ sentNames tail := by
  rw [sentNames_append, sentNames_loopEvents]

/-- C5 counterexample: with two contacts and an empty chosen category the
selector fails at the first contact and the remaining contact is NOT
attempted — there is no per-recipient skip, the whole run aborts. -/
theorem dispatch_pick_failure_no_skip_cex :
    (dispatch envNoTemplate [("Alice", "+10001"), ("Bob", "+10002")]).1
        = Except.error (DispatchError.pickFailed PickError.noTemplate) ∧
    Event.send "Bob"
        ∉ (dispatch envNoTemplate [("Alice", "+10001"), ("Bob", "+10002")]).2 ∧
    Event.send "Alice"
        ∉ (dispatch envNoTemplate [("Alice", "+10001"), ("Bob", "+10002")]).2 := by
  decide

/-- C5 (amended): when the chosen category holds zero templates the message
selector fails, and the dispatch loop does not isolate the failure: it
propagates, the failing contact and all later contacts are not attempted,
and the session is still released exactly once. -/
theorem pick_failure_aborts_batch :
    ∀ (env : Env) (contacts : List (String × String)) (i : Nat),
      env.loginOk = true →
      i < contacts.length →
      (∀ j, j < i → ((env.picks j).2).isSome = true) →
      (∀ j, j < i → env.sendResult j = none) →
      (env.picks i).2 = none →
      (dispatch env contacts).1
          = Except.error (DispatchError.pickFailed PickError.noTemplate) ∧
      sentNames (dispatch env contacts).2 = (contacts.take i).map Prod.fst ∧
      ((dispatch env contacts).2).count Event.quit = 1 := by
  intro env contacts i hlog hlen hpick hsend hfail
  have hloop := dispatchLoop_pick_fail env i contacts 0 hlen
    (fun j hj => by simpa using hpick j hj)
    (fun j hj => by simpa using hsend j hj)
    (by simpa using hfail)
  have hd : dispatch env contacts
      = (Except.error (DispatchError.pickFailed PickError.noTemplate),
         Event.getDriver ::
           ((loopEvents ((contacts.take i).map Prod.fst) 0
              ++ [Event.pick (0 + i)]) ++ [Event.quit])) := by
    simp only [dispatch, hlog, if_true, hloop]
  refine ⟨?_, ?_, dispatch_quit_count env contacts⟩
  · rw [hd]
  · rw [hd, sentNames_getDriver_cons, List.append_assoc, sentNames_loop_append]
    simp [sentNames, List.filterMap_cons]

/-- C5 witness for the amended claim, at the concrete failing batch. -/
theorem pick_failure_aborts_batch_witness :
    envNoTemplate.loginOk = true ∧
    0 < ([("Alice", "+10001"), ("Bob", "+10002")] : List (String × String)).length ∧
    (envNoTemplate.picks 0).2 = none ∧
    (dispatch envNoTemplate [("Alice", "+10001"), ("Bob", "+10002")]).1
        = Except.error (DispatchError.pickFailed PickError.noTemplate) ∧
    sentNames (dispatch envNoTemplate [("Alice", "+10001"), ("Bob", "+10002")]).2
        = (([("Alice", "+10001"), ("Bob", "+10002")] :
            List (String × String)).take 0).map Prod.fst :=
  ⟨rfl, by decide, rfl,
   (pick_failure_aborts_batch envNoTemplate
      [("Alice", "+10001"), ("Bob", "+10002")] 0 rfl (by decide)
      (fun j hj => absurd hj (Nat.not_lt_zero j))
      (fun j hj => absurd hj (Nat.not_lt_zero j)) rfl).1,
   (pick_failure_aborts_batch envNoTemplate
      [("Alice", "+10001"), ("Bob", "+10002")] 0 rfl (by decide)
      (fun j hj => absurd hj (Nat.not_lt_zero j))
      (fun j hj => absurd hj (Nat.not_lt_zero j)) rfl).2.1⟩

/-- C6: `pick_message` returns the category greeting prepended to the
template content together with the image flag (in particular, for a
non-image template the flag is false), and the returned body is prefixed by
exactly one of the three fixed greetings: the chosen category's greeting is
a prefix and no other greeting is. -/
theorem pick_message_greeting :
    ∀ (cat : Category) (r : TemplateRow),
      pick_message cat (some r)
          = Except.ok (greeting cat ++ r.content, r.is_image != 0) ∧
      (r.is_image = 0 →
        pick_message cat (some r)
            = Except.ok (greeting cat ++ r.content, false)) ∧
      ((greeting cat).data).isPrefixOf ((greeting cat ++ r.content).data) = true ∧
      ∀ c' : Category,
        ((greeting c').data).isPrefixOf ((greeting cat ++ r.content).data) = true →
        c' = cat := by
  intro cat r
  refine ⟨rfl, ?_, ?_, ?_⟩
  · intro h; simp [pick_message, h]
  · rw [String.data_append]; exact isPrefixOf_append_self _ _
  · intro c' h; exact greeting_prefix_unique cat c' r.content h

/-- C6 witness: a concrete non-image quote template. -/
theorem pick_message_greeting_witness :
    ({ content := "Stay positive.", is_image := 0 } : TemplateRow).is_image = 0 ∧
    pick_message Category.quote (some { content := "Stay positive.", is_image := 0 })
      = Except.ok (greeting Category.quote ++ "Stay positive.", false) :=
  ⟨rfl,
   (pick_message_greeting Category.quote
      { content := "Stay positive.", is_image := 0 }).2.1 rfl⟩

/-- C7: for the Now interval, `schedule_job` executes the dispatch job
synchronously exactly once inline before returning, and registers no task:
every job in the resulting store was already in the old store. -/
theorem schedule_now_inline_once :
    ∀ (env : Env) (friends : List Friend) (gm : Nat → List String)
      (jobs : List ScheduledJob) (ig : Bool) (tid : Nat),
      (schedule_job env friends gm jobs ig tid IntervalType.Now).2
          = [job_func env friends gm ig tid] ∧
      ∀ j ∈ (schedule_job env friends gm jobs ig tid IntervalType.Now).1,
        j ∈ jobs := by
  intro env friends gm jobs ig tid
  constructor
  · simp [schedule_job]
  · intro j hj
    have h1 : (schedule_job env friends gm jobs ig tid IntervalType.Now).1
        = remove_job jobs job_id := by
      simp [schedule_job, remove_if_present]
    rw [h1] at hj
    exact List.mem_of_mem_filter hj

/-- C7 witness: a concrete Now call runs the job inline once and registers
nothing — a job under a different id survives untouched. -/
theorem schedule_now_inline_once_witness :
    (schedule_job envAllOk [] (fun _ => [])
        [{ jobId := "other_job", trigger := TriggerSpec.intervalDays 1,
           is_group := false, target_id := 2 }] false 1 IntervalType.Now).2
        = [job_func envAllOk [] (fun _ => []) false 1] ∧
    ({ jobId := "other_job", trigger := TriggerSpec.intervalDays 1,
       is_group := false, target_id := 2 } : ScheduledJob) ∈
      [({ jobId := "other_job", trigger := TriggerSpec.intervalDays 1,
          is_group := false, target_id := 2 } : ScheduledJob)] :=
  ⟨(schedule_now_inline_once envAllOk [] (fun _ => [])
      [{ jobId := "other_job", trigger := TriggerSpec.intervalDays 1,
         is_group := false, target_id := 2 }] false 1).1,
   (schedule_now_inline_once envAllOk [] (fun _ => [])
      [{ jobId := "other_job", trigger := TriggerSpec.intervalDays 1,
         is_group := false, target_id := 2 }] false 1).2
     { jobId := "other_job", trigger := TriggerSpec.intervalDays 1,
       is_group := false, target_id := 2 } (by decide)⟩

/-- C8: if a send fails at loop position i (earlier picks and sends having
succeeded), the failure propagates out of the per-contact loop and no later
contact is attempted: the recorded send attempts are exactly the first
i + 1 contact names. -/
theorem dispatch_send_failure_aborts_batch :
    ∀ (env : Env) (contacts : List (String × String)) (i : Nat)
      (err : SendError),
      env.loginOk = true →
      i < contacts.length →
      (∀ j, j < i + 1 → ((env.picks j).2).isSome = true) →
      (∀ j, j < i → env.sendResult j = none) →
      env.sendResult i = some err →
      (dispatch env contacts).1
          = Except.error (DispatchError.sendFailed err) ∧
      sentNames (dispatch env contacts).2
          = (contacts.take (i + 1)).map Prod.fst := by
  intro env contacts i err hlog hlen hpick hsend hfail
  have hloop := dispatchLoop_send_fail env err i contacts 0 hlen
    (fun j hj => by simpa using hpick j hj)
    (fun j hj => by simpa using hsend j hj)
    (by simpa using hfail)
  have hd : dispatch env contacts
      = (Except.error (DispatchError.sendFailed err),
         Event.getDriver ::
           (loopEvents ((contacts.take (i + 1)).map Prod.fst) 0
              ++ [Event.quit])) := by
    simp only [dispatch, hlog, if_true, hloop]
  refine ⟨?_, ?_⟩
  · rw [hd]
  · rw [hd, sentNames_getDriver_cons, sentNames_loop_append]
    simp [sentNames, List.filterMap_cons]

/-- C8 witness: three contacts, the second send times out; exactly the
first two contacts are attempted. -/
theorem dispatch_send_failure_aborts_batch_witness :
    envSendFail.loginOk = true ∧
    1 < ([("Alice", "+10001"), ("Bob", "+10002"), ("Carol", "+10003")] :
          List (String × String)).length ∧
    envSendFail.sendResult 1 = some SendError.searchTimeout ∧
    (dispatch envSendFail
        [("Alice", "+10001"), ("Bob", "+10002"), ("Carol", "+10003")]).1
        = Except.error (DispatchError.sendFailed SendError.searchTimeout) ∧
    sentNames (dispatch envSendFail
        [("Alice", "+10001"), ("Bob", "+10002"), ("Carol", "+10003")]).2
        = (([("Alice", "+10001"), ("Bob", "+10002"), ("Carol", "+10003")] :
            List (String × String)).take 2).map Prod.fst :=
  ⟨rfl, by decide, rfl,
   (dispatch_send_failure_aborts_batch envSendFail
      [("Alice", "+10001"), ("Bob", "+10002"), ("Carol", "+10003")] 1
      SendError.searchTimeout rfl (by decide) (by decide) (by decide) rfl).1,
   (dispatch_send_failure_aborts_batch envSendFail
      [("Alice", "+10001"), ("Bob", "+10002"), ("Carol", "+10003")] 1
      SendError.searchTimeout rfl (by decide) (by decide) (by decide) rfl).2⟩

/-- C9: scheduling Monthly registers a cron trigger bound to day 1 (not a
30-day interval); under the cron firing rule that trigger fires on a date
iff its day-of-month is 1, so over any simulated 60-day window it fires
exactly as many times as the window contains first-of-month days. -/
theorem schedule_monthly_day1 :
    ∀ (env : Env) (friends : List Friend) (gm : Nat → List String)
      (jobs : List ScheduledJob) (ig : Bool) (tid : Nat),
      get_job (schedule_job env friends gm jobs ig tid IntervalType.Monthly).1
          job_id
        = some { jobId := job_id, trigger := TriggerSpec.cron 1,
                 is_group := ig, target_id := tid } ∧
      (∀ d : Date, cronFires 1 d = true ↔ d.day = 1) ∧
      ∀ start : Date,
        ((window start 60).filter (cronFires 1)).length
          = ((window start 60).filter (fun d => d.day == 1)).length := by
  intro env friends gm jobs ig tid
  refine ⟨?_, ?_, ?_⟩
  · have he := schedule_recurring_aux env friends gm jobs ig tid
      IntervalType.Monthly (by decide)
    rw [he]
    exact get_job_after_replace jobs job_id _ rfl
  · intro d; simp [cronFires]
  · intro s; rfl

/-- C10: a Now schedule call while a recurring task is registered removes
that task and adds no new one: afterwards no job is registered under the
singleton id. -/
theorem schedule_now_cancels_recurring :
    ∀ (env : Env) (friends : List Friend) (gm : Nat → List String)
      (jobs : List ScheduledJob) (ig : Bool) (tid : Nat) (j0 : ScheduledJob),
      get_job jobs job_id = some j0 →
      (schedule_job env friends gm jobs ig tid IntervalType.Now).1
          = remove_job jobs job_id ∧
      get_job (schedule_job env friends gm jobs ig tid IntervalType.Now).1
          job_id = none := by
  intro env friends gm jobs ig tid j0 h
  have h1 : (schedule_job env friends gm jobs ig tid IntervalType.Now).1
      = remove_job jobs job_id := by
    simp [schedule_job, remove_if_present]
  exact ⟨h1, by rw [h1]; exact get_job_remove jobs job_id⟩

/-- C10 witness: a concrete armed Daily task silently cancelled by a Now
call. -/
theorem schedule_now_cancels_recurring_witness :
    get_job [({ jobId := job_id, trigger := TriggerSpec.intervalDays 1,
                is_group := false, target_id := 1 } : ScheduledJob)] job_id
        = some { jobId := job_id, trigger := TriggerSpec.intervalDays 1,
                 is_group := false, target_id := 1 } ∧
    get_job (schedule_job envAllOk [] (fun _ => [])
        [{ jobId := job_id, trigger := TriggerSpec.intervalDays 1,
           is_group := false, target_id := 1 }] false 1 IntervalType.Now).1
        job_id = none :=
  ⟨by decide,
   (schedule_now_cancels_recurring envAllOk [] (fun _ => [])
      [{ jobId := job_id, trigger := TriggerSpec.intervalDays 1,
         is_group := false, target_id := 1 }] false 1
      { jobId := job_id, trigger := TriggerSpec.intervalDays 1,
        is_group := false, target_id := 1 } (by decide)).2⟩

end WhatsAppAutomation
